import Mathlib

/-
Verification of the VM lifecycle orchestrator of cloudclawmac.

Shallow embedding of the orchestration core: tenants, VM instances and
billing sessions (src/backend/src/models/db.js), the route handlers for
create/start/stop/delete (src/backend/src/routes/vms.js), the background
sweeps (src/backend/src/services/background.js), the Orka provider client
envelope (services/orka.js) and the credit guard middleware.

Timestamps are modelled as whole seconds (Nat).  SQL NOW() becomes an
explicit `now` argument.  Provider and database outcomes that the code
branches on are passed in as explicit oracle arguments.
-/

namespace CloudClaw

/-- Tenant tiers (tenants.tier; db.js schema defaults to 'standard'). -/
inductive Tier
  | standard
  | pro
  | enterprise
deriving DecidableEq, Repr

/-- Concurrency limits per tier, from the create handler of
src/backend/src/routes/vms.js (lines 83-87): standard 1, pro 3,
enterprise 10. -/
def tierLimit : Tier → Nat
  | Tier.standard => 1
  | Tier.pro => 3
  | Tier.enterprise => 10

/-- Pricing table from config.pricing (cents per hour):
standard 500 ($5/hour), pro 1000 ($10/hour), enterprise 2000 ($20/hour). -/
def pricingCentsPerHour : Tier → Nat
  | Tier.standard => 500
  | Tier.pro => 1000
  | Tier.enterprise => 2000

/-- VM statuses appearing in the source: 'provisioning' (insert default),
'ready', 'running', 'stopped', 'failed', 'expired', 'unknown' and the
transitional 'starting' queried by syncVMState. -/
inductive VMStatus
  | provisioning
  | ready
  | running
  | stopped
  | failed
  | expired
  | unknown
  | starting
deriving DecidableEq, Repr

/-- A row of the tenants table, restricted to the columns the orchestration
core reads or writes (id, tier, trial_credits, trial_ends_at). -/
structure Tenant where
  id : Nat
  tier : Tier
  trialCredits : Int
  trialEndsAt : Option Nat
deriving DecidableEq, Repr

/-- A row of the vm_instances table, restricted to the columns the
orchestration core reads or writes. -/
structure VM where
  id : Nat
  tenantId : Nat
  status : VMStatus
  startedAt : Option Nat
  stoppedAt : Option Nat
  expiresAt : Option Nat
deriving DecidableEq, Repr

/-- A row of the vm_sessions table (billing sessions). -/
structure Session where
  id : Nat
  vmId : Nat
  startedAt : Nat
  endedAt : Option Nat
  durationSeconds : Option Nat
  costCents : Nat
deriving DecidableEq, Repr

/-- The relevant database state: the three tables plus a counter supplying
fresh row identifiers (gen_random_uuid in the schema). -/
structure St where
  tenants : List Tenant
  vms : List VM
  sessions : List Session
  nextId : Nat
deriving DecidableEq, Repr

/-- SELECT * FROM tenants WHERE id = $1 (first matching row). -/
def findTenant (s : St) (tid : Nat) : Option Tenant :=
  s.tenants.find? (fun t => t.id == tid)

/-- SELECT * FROM vm_instances WHERE id = $1 AND tenant_id = $2, as issued
by the start/stop/delete/connect handlers. -/
def findVM (s : St) (tid vmId : Nat) : Option VM :=
  s.vms.find? (fun v => v.id == vmId && v.tenantId == tid)

/-- SELECT id FROM vm_sessions WHERE vm_instance_id = $1 AND ended_at IS
NULL (first row). -/
def findOpenSession (s : St) (vmId : Nat) : Option Session :=
  s.sessions.find? (fun c => c.vmId == vmId && c.endedAt == none)

/-- UPDATE vm_instances ... WHERE id = $1 (the source updates by id only,
with no tenant filter on the UPDATE itself). -/
def mapVM (s : St) (vmId : Nat) (f : VM → VM) : St :=
  { s with vms := s.vms.map (fun v => if v.id == vmId then f v else v) }

/-- UPDATE vm_sessions ... WHERE id = $1. -/
def mapSession (s : St) (sid : Nat) (f : Session → Session) : St :=
  { s with sessions := s.sessions.map (fun c => if c.id == sid then f c else c) }

/-- Cost expression of the explicit stop handler
(src/backend/src/routes/vms.js line 259):
cost_cents = EXTRACT(EPOCH FROM (NOW() - started_at))::INTEGER * 14 / 60.
Elapsed time in whole seconds; the SQL integer division truncates.  The
rate 14 is a literal, independent of the tenant tier. -/
def stopPathCostCents (elapsedSeconds : Nat) : Nat :=
  elapsedSeconds * 14 / 60

/-- Cost expression of the forced-expiry sweep
(src/backend/src/services/background.js line 49):
cost_cents = EXTRACT(EPOCH FROM (NOW() - started_at))::INTEGER * 14 / 60.
Transcribed separately from the sweep's own SQL. -/
def expirePathCostCents (elapsedSeconds : Nat) : Nat :=
  elapsedSeconds * 14 / 60

/-- Modelled from the spec (for the refinement comparison of claim C1
only): the cost the spec's numeric policy prescribes, computed from the
tenant's tier rate of config.pricing cents per hour applied to elapsed
seconds and truncated to whole cents. -/
def specTierCostCents (tier : Tier) (elapsedSeconds : Nat) : Nat :=
  elapsedSeconds * pricingCentsPerHour tier / 3600

/-- Credit guard middleware requireCredits: passes when trial_credits > 0,
or tier is pro or enterprise, or trial_ends_at is set and lies in the
future. -/
def requireCredits (t : Tenant) (now : Nat) : Bool :=
  decide (0 < t.trialCredits) ||
  (t.tier == Tier.pro || t.tier == Tier.enterprise) ||
  (match t.trialEndsAt with
    | some e => decide (now < e)
    | none => false)

/-- Status filter of the create handler's quota query:
status IN ('running', 'provisioning'). -/
def countsAgainstCap (st : VMStatus) : Bool :=
  st == VMStatus.running || st == VMStatus.provisioning

/-- SELECT COUNT(*) FROM vm_instances WHERE tenant_id = $1 AND status IN
('running', 'provisioning') — the count the create handler compares
against the tier limit. -/
def activeCount (s : St) (tid : Nat) : Nat :=
  (s.vms.filter (fun v => v.tenantId == tid && countsAgainstCap v.status)).length

/-- Expiry deadline assigned on insert: NOW() + INTERVAL '24 hours'
(vmQueries.create), in seconds. -/
def newVMExpiry : Nat := 86400

/-- Outcomes of the create route (middleware rejections included). -/
inductive CreateOutcome
  | tenantNotFound
  | paymentRequired
  | quotaExceeded
  | created (vmId : Nat)
deriving DecidableEq, Repr

/-- POST / (create handler, src/backend/src/routes/vms.js lines 69-130),
preceded by the requireCredits middleware: reject 404 when the tenant is
missing, 402 when the credit guard fails, 429 when the count of VMs in
running or provisioning is not below the tier limit; otherwise insert a
fresh row in 'provisioning' with a 24h expiry. -/
def createVM (s : St) (tid : Nat) (now : Nat) : CreateOutcome × St :=
  match findTenant s tid with
  | none => (CreateOutcome.tenantNotFound, s)
  | some t =>
    if requireCredits t now = false then (CreateOutcome.paymentRequired, s)
    else if tierLimit t.tier ≤ activeCount s tid then (CreateOutcome.quotaExceeded, s)
    else
      let vm : VM :=
        { id := s.nextId, tenantId := tid, status := VMStatus.provisioning,
          startedAt := none, stoppedAt := none, expiresAt := some (now + newVMExpiry) }
      (CreateOutcome.created s.nextId,
        { s with vms := s.vms ++ [vm], nextId := s.nextId + 1 })

/-- Success branch of provisionOrkaVM: UPDATE vm_instances SET
orka_vm_id = $1, status = 'ready' WHERE id = $3. -/
def applyProvisionSuccess (s : St) (vmId : Nat) : St :=
  mapVM s vmId (fun v => { v with status := VMStatus.ready })

/-- Failure branch of provisionOrkaVM: UPDATE vm_instances SET
status = 'failed', metadata error WHERE id = $4. -/
def applyProvisionFail (s : St) (vmId : Nat) : St :=
  mapVM s vmId (fun v => { v with status := VMStatus.failed })

/-- Outcomes of the start route. -/
inductive StartOutcome
  | tenantNotFound
  | paymentRequired
  | vmNotFound
  | alreadyRunning
  | providerError
  | startedOk
deriving DecidableEq, Repr

/-- POST /:vmId/start (src/backend/src/routes/vms.js lines 156-206),
preceded by the requireCredits middleware.  The handler looks the VM up by
id and tenant; when its status is 'running' it answers 200 with a message
and changes nothing; otherwise it issues the provider start call
(providerOk is that call's ok flag); on provider failure it answers 500
and changes nothing; on success it runs UPDATE vm_instances SET
status = 'running' WHERE id = $1 (only the status column — started_at is
not touched) and INSERT INTO vm_sessions (vm_instance_id, started_at)
VALUES ($1, NOW()). -/
def startVM (s : St) (tid vmId : Nat) (providerOk : Bool) (now : Nat) :
    StartOutcome × St :=
  match findTenant s tid with
  | none => (StartOutcome.tenantNotFound, s)
  | some t =>
    if requireCredits t now = false then (StartOutcome.paymentRequired, s)
    else
      match findVM s tid vmId with
      | none => (StartOutcome.vmNotFound, s)
      | some vm =>
        if vm.status == VMStatus.running then (StartOutcome.alreadyRunning, s)
        else if providerOk = false then (StartOutcome.providerError, s)
        else
          let s1 := mapVM s vmId (fun v => { v with status := VMStatus.running })
          let sess : Session :=
            { id := s1.nextId, vmId := vmId, startedAt := now,
              endedAt := none, durationSeconds := none, costCents := 0 }
          (StartOutcome.startedOk,
            { s1 with sessions := s1.sessions ++ [sess], nextId := s1.nextId + 1 })

/-- End-of-session update of the stop handler (vms.js lines 250-262): find
the open session of the VM and, when one exists, set ended_at = NOW() and
cost_cents by the stop path formula (duration_seconds is not written by
this path). -/
def closeOpenSessionStopPath (s : St) (vmId : Nat) (now : Nat) : St :=
  match findOpenSession s vmId with
  | none => s
  | some sess =>
      mapSession s sess.id (fun c =>
        { c with endedAt := some now,
                 costCents := stopPathCostCents (now - c.startedAt) })

/-- Outcomes of the stop route. -/
inductive StopOutcome
  | vmNotFound
  | notRunning
  | providerError
  | stoppedOk
deriving DecidableEq, Repr

/-- POST /:vmId/stop (src/backend/src/routes/vms.js lines 209-268): look
the VM up by id and tenant; when its status is not 'running' answer with a
message and change nothing; issue the provider stop call; on provider
failure answer 500 and change nothing; on success UPDATE vm_instances SET
status = 'stopped' WHERE id = $1 (status only — stopped_at is not written
by this path) and close the open billing session. -/
def stopVM (s : St) (tid vmId : Nat) (providerOk : Bool) (now : Nat) :
    StopOutcome × St :=
  match findVM s tid vmId with
  | none => (StopOutcome.vmNotFound, s)
  | some vm =>
    if (vm.status == VMStatus.running) = false then (StopOutcome.notRunning, s)
    else if providerOk = false then (StopOutcome.providerError, s)
    else
      let s1 := mapVM s vmId (fun v => { v with status := VMStatus.stopped })
      (StopOutcome.stoppedOk, closeOpenSessionStopPath s1 vmId now)

/-- DELETE /:vmId (vms.js lines 271-309): the provider stop and delete
calls are best-effort and their results are ignored; locally the row is
removed (DELETE FROM vm_instances WHERE id = $1 AND tenant_id = $2) and
its sessions go with it by the schema's ON DELETE CASCADE. -/
def deleteVM (s : St) (tid vmId : Nat) : St :=
  if s.vms.any (fun v => v.id == vmId && v.tenantId == tid) then
    { s with vms := s.vms.filter (fun v => !(v.id == vmId && v.tenantId == tid)),
             sessions := s.sessions.filter (fun c => !(c.vmId == vmId)) }
  else s

/-- Response envelope of OrkaClient.request (services/orka.js lines
86-109): { ok, status, data } on an HTTP success, { ok: false, status,
error } on an HTTP failure, { ok: false, error } when fetch itself
rejects.  dataStatus stands for data?.status of the parsed body. -/
structure Envelope where
  ok : Bool
  httpStatus : Option Nat
  dataStatus : Option String
  errorMsg : Option String
deriving DecidableEq, Repr

/-- What the network did for one request: either an HTTP response arrived
(with response.ok, response.status, the parsed body's status field and
message field), or fetch rejected with a network error. -/
inductive FetchOutcome
  | response (httpOk : Bool) (httpStatus : Nat)
      (bodyStatus : Option String) (bodyMessage : Option String)
  | networkFailure (msg : String)
deriving DecidableEq, Repr

/-- OrkaClient.request: the try/catch converts every outcome — HTTP
failure envelopes (404 included) and fetch rejections alike — into a
RETURNED value; this function is total and never throws. -/
def request : FetchOutcome → Envelope
  | FetchOutcome.response true code body _ =>
      { ok := true, httpStatus := some code, dataStatus := body, errorMsg := none }
  | FetchOutcome.response false code _ msg =>
      { ok := false, httpStatus := some code, dataStatus := none,
        errorMsg := some (msg.getD "statusText") }
  | FetchOutcome.networkFailure msg =>
      { ok := false, httpStatus := none, dataStatus := none, errorMsg := some msg }

/-- OrkaClient.getVMStatus = authenticate() followed by request(...).
request never throws, so the only way the call can raise (Except.error) is
authenticate() failing — authOk is whether authentication succeeded. -/
def getVMStatus (authOk : Bool) (fetch : FetchOutcome) : Except String Envelope :=
  if authOk then Except.ok (request fetch) else Except.error "Orka authentication failed"

/-- Candidate test of vmQueries.findExpired:
WHERE status = 'running' AND expires_at < NOW() — a strict comparison; a
NULL expires_at never satisfies it. -/
def isExpiredCandidate (v : VM) (now : Nat) : Bool :=
  v.status == VMStatus.running &&
  (match v.expiresAt with
    | some e => decide (e < now)
    | none => false)

/-- SELECT * FROM vm_instances WHERE status = 'running' AND
expires_at < NOW() FOR UPDATE (vmQueries.findExpired). -/
def findExpired (s : St) (now : Nat) : List VM :=
  s.vms.filter (fun v => isExpiredCandidate v now)

/-- Whether processing one claimed VM inside the expiry sweep's per-VM
try block raises an exception.  In the source an exception can come from
the provider client's authentication or from a database call; a returned
{ ok: false } provider envelope is NOT checked by the sweep and does not
raise.  A raise is modelled at the head of the block (before any local
write); the catch logs and moves on either way. -/
inductive PerVMOutcome
  | ok
  | throws (msg : String)
deriving DecidableEq, Repr

def PerVMOutcome.isOk : PerVMOutcome → Bool
  | PerVMOutcome.ok => true
  | PerVMOutcome.throws _ => false

/-- End-of-session update of the expiry sweep (background.js lines 42-53):
set ended_at = NOW(), duration_seconds, and cost_cents by the expire path
formula on the open session, when one exists. -/
def closeOpenSessionExpirePath (s : St) (vmId : Nat) (now : Nat) : St :=
  match findOpenSession s vmId with
  | none => s
  | some sess =>
      mapSession s sess.id (fun c =>
        { c with endedAt := some now,
                 durationSeconds := some (now - c.startedAt),
                 costCents := expirePathCostCents (now - c.startedAt) })

/-- Body of the expiry sweep's try block for one claimed VM
(background.js lines 27-53): UPDATE vm_instances SET status = 'expired',
stopped_at = NOW() WHERE id = $2, then close the open billing session. -/
def applyExpire (s : St) (vmId : Nat) (now : Nat) : St :=
  let s1 := mapVM s vmId (fun v =>
    { v with status := VMStatus.expired, stoppedAt := some now })
  closeOpenSessionExpirePath s1 vmId now

/-- Return value of stopExpiredVMs: { stopped } or { stopped: 0, error }. -/
structure SweepResult where
  stopped : Nat
  errorMsg : Option String
deriving DecidableEq, Repr

/-- The for-loop of stopExpiredVMs over the claimed rows: each VM is
processed inside its own try/catch; a caught exception is logged and the
loop continues with the rest; stoppedCount increments only on success. -/
def sweepGo (outcome : Nat → PerVMOutcome) (now : Nat) :
    List VM → St → Nat → Nat × St
  | [], s, acc => (acc, s)
  | vm :: rest, s, acc =>
    match outcome vm.id with
    | PerVMOutcome.ok => sweepGo outcome now rest (applyExpire s vm.id now) (acc + 1)
    | PerVMOutcome.throws _ => sweepGo outcome now rest s acc

/-- stopExpiredVMs (background.js lines 13-66).  queryFails carries the
message when the candidate query itself throws (outer catch: return
{ stopped: 0, error }); otherwise the claimed rows are findExpired and the
loop runs.  The source early-returns { stopped: 0 } on an empty row set,
which coincides with the loop's value there. -/
def stopExpiredVMs (s : St) (queryFails : Option String)
    (outcome : Nat → PerVMOutcome) (now : Nat) : SweepResult × St :=
  match queryFails with
  | some msg => ({ stopped := 0, errorMsg := some msg }, s)
  | none =>
      let r := sweepGo outcome now (findExpired s now) s 0
      ({ stopped := r.1, errorMsg := none }, r.2)

/-- SELECT id, orka_vm_name, status FROM vm_instances WHERE status IN
('running', 'starting') — the rows the drift sync visits. -/
def syncTargets (s : St) : List VM :=
  s.vms.filter (fun v => v.status == VMStatus.running || v.status == VMStatus.starting)

/-- Return value of syncVMState. -/
structure SyncResult where
  synced : Nat
  errorMsg : Option String
deriving DecidableEq, Repr

/-- The for-loop of syncVMState (background.js lines 81-101): for each
target the provider status query either returns an envelope (Except.ok) or
raises (Except.error).  On a returned envelope, if !ok or data?.status is
not 'running', the row is set to 'stopped' and counted; otherwise nothing
happens.  Only a RAISED exception reaches the catch that sets 'unknown'. -/
def syncGo (resp : Nat → Except String Envelope) :
    List VM → St → Nat → Nat × St
  | [], s, acc => (acc, s)
  | vm :: rest, s, acc =>
    match resp vm.id with
    | Except.ok env =>
        if (env.ok == false) || (env.dataStatus != some "running") then
          syncGo resp rest
            (mapVM s vm.id (fun v => { v with status := VMStatus.stopped })) (acc + 1)
        else
          syncGo resp rest s acc
    | Except.error _ =>
        syncGo resp rest
          (mapVM s vm.id (fun v => { v with status := VMStatus.unknown })) (acc + 1)

/-- syncVMState (background.js lines 71-108): outer catch for the target
query (return { synced: 0, error }), else run the loop.  No billing
session is touched anywhere in this function. -/
def syncVMState (s : St) (queryFails : Option String)
    (resp : Nat → Except String Envelope) : SyncResult × St :=
  match queryFails with
  | some msg => ({ synced := 0, errorMsg := some msg }, s)
  | none =>
      let r := syncGo resp (syncTargets s) s 0
      ({ synced := r.1, errorMsg := none }, r.2)

/-- One step of the orchestrator: any route handler invocation (with any
oracle outcomes) or one sweep run.  Rejected requests are steps too (they
leave the state as is). -/
inductive Step : St → St → Prop
  | create {s : St} (tid now : Nat) : Step s (createVM s tid now).2
  | provisionOk {s : St} (vmId : Nat) : Step s (applyProvisionSuccess s vmId)
  | provisionFail {s : St} (vmId : Nat) : Step s (applyProvisionFail s vmId)
  | start {s : St} (tid vmId : Nat) (providerOk : Bool) (now : Nat) :
      Step s (startVM s tid vmId providerOk now).2
  | stop {s : St} (tid vmId : Nat) (providerOk : Bool) (now : Nat) :
      Step s (stopVM s tid vmId providerOk now).2
  | remove {s : St} (tid vmId : Nat) : Step s (deleteVM s tid vmId)
  | sweep {s : St} (q : Option String) (f : Nat → PerVMOutcome) (now : Nat) :
      Step s (stopExpiredVMs s q f now).2
  | sync {s : St} (q : Option String) (resp : Nat → Except String Envelope) :
      Step s (syncVMState s q resp).2

/-- Reflexive-transitive closure of Step: the states reachable by some
interleaving of requests and sweeps. -/
inductive Reaches : St → St → Prop
  | refl (s : St) : Reaches s s
  | tail {s t u : St} : Reaches s t → Step t u → Reaches s u

/-- tenantQueries.deductCredits (src/backend/src/models/db.js lines
230-236): UPDATE tenants SET trial_credits = trial_credits - $2 WHERE
id = $1 AND trial_credits >= $2 RETURNING *.  The conditional update
either returns the updated row or affects zero rows (none). -/
def deductCredits (t : Tenant) (amount : Int) : Option Tenant :=
  if amount ≤ t.trialCredits then
    some { t with trialCredits := t.trialCredits - amount }
  else none

/-- Modelled from the spec: the Ephemeral Credential Issuer is implemented
in src/backend/src/services/ssh.js (generateConnectionCredentials), which
the connect route imports but which is not among the provided sources.
Attributes per the spec's data model: secret value and an absolute expiry
five minutes from issuance. -/
structure Credential where
  secret : String
  expiresAt : Nat
deriving DecidableEq, Repr

/-- Modelled from the spec: the fixed 5-minute TTL of an ephemeral
credential, in seconds. -/
def credentialTTLSeconds : Nat := 300

/-- Modelled from the spec: issue(vmId) generates a secret and stores it
with expiry issuance time + 5 minutes, overwriting any prior credential
(only one may be live). -/
def issueCredential (now : Nat) (secret : String) (_prior : Option Credential) :
    Option Credential :=
  some { secret := secret, expiresAt := now + credentialTTLSeconds }

/-- Modelled from the spec: retrieve(vmId) reads the stored credential; if
its expiry has passed it deletes it and reports not-found (first
component none); otherwise it deletes it (single consumption) and returns
it.  The second component is the credential store after the call. -/
def retrieveCredential (now : Nat) (stored : Option Credential) :
    Option String × Option Credential :=
  match stored with
  | none => (none, none)
  | some c => if c.expiresAt < now then (none, none) else (some c.secret, none)

/-- A standard-tier tenant with the default 500 trial credits, as inserted
at signup. -/
def tenant0 : Tenant :=
  { id := 0, tier := Tier.standard, trialCredits := 500, trialEndsAt := none }

/-- An enterprise-tier tenant. -/
def entTenant : Tenant :=
  { id := 5, tier := Tier.enterprise, trialCredits := 500, trialEndsAt := none }

/-- A running VM of the enterprise tenant. -/
def c1VM : VM :=
  { id := 6, tenantId := 5, status := VMStatus.running, startedAt := some 0,
    stoppedAt := none, expiresAt := some 86400 }

/-- An open billing session of c1VM that started at time 0. -/
def c1Session : Session :=
  { id := 0, vmId := 6, startedAt := 0, endedAt := none,
    durationSeconds := none, costCents := 0 }

/-- State: the enterprise tenant with one running VM and its open session. -/
def c1St : St :=
  { tenants := [entTenant], vms := [c1VM], sessions := [c1Session], nextId := 10 }

/-- A running VM of tenant0, used for the sync and sweep scenarios. -/
def c3VM : VM :=
  { id := 7, tenantId := 0, status := VMStatus.running, startedAt := some 0,
    stoppedAt := none, expiresAt := some 86400 }

/-- State with a single running VM and no sessions. -/
def c3St : St := { tenants := [tenant0], vms := [c3VM], sessions := [], nextId := 8 }

/-- Provider answered with HTTP 404 for the status query: the VM is
missing, the provider itself was reachable. -/
def notFoundFetch : FetchOutcome :=
  FetchOutcome.response false 404 none (some "not found")

/-- The fetch call rejected: the provider was unreachable. -/
def unreachableFetch : FetchOutcome := FetchOutcome.networkFailure "fetch failed"

/-- Status-query oracle: every VM's query yields the 404 envelope. -/
def respNotFound : Nat → Except String Envelope :=
  fun _ => getVMStatus true notFoundFetch

/-- Status-query oracle: every VM's query yields the network-failure
envelope. -/
def respUnreachable : Nat → Except String Envelope :=
  fun _ => getVMStatus true unreachableFetch

/-- Status-query oracle: authentication throws, so getVMStatus raises. -/
def respAuthThrow : Nat → Except String Envelope :=
  fun _ => getVMStatus false notFoundFetch

/-- Status-query oracle: the provider is reachable and reports the VM as
stopped (HTTP 200, body status 'stopped'). -/
def respReportsStopped : Nat → Except String Envelope :=
  fun _ => getVMStatus true (FetchOutcome.response true 200 (some "stopped") none)

/-- An open billing session of c3VM. -/
def c4Session : Session :=
  { id := 3, vmId := 7, startedAt := 100, endedAt := none,
    durationSeconds := none, costCents := 0 }

/-- State: the running VM c3VM together with its open session. -/
def c4St : St :=
  { tenants := [tenant0], vms := [c3VM], sessions := [c4Session], nextId := 9 }

/-- Trace states for the quota scenario: a standard tenant (limit 1)
creates VM 0 at time 0, VM 0 becomes ready, the tenant creates VM 1 at
time 5, then starts VM 0 at time 10. -/
def c2Init : St := { tenants := [tenant0], vms := [], sessions := [], nextId := 0 }

def c2S1 : St := (createVM c2Init 0 0).2

def c2S2 : St := applyProvisionSuccess c2S1 0

def c2S3 : St := (createVM c2S2 0 5).2

def c2S4 : St := (startVM c2S3 0 0 true 10).2

/-- Claim C1: every billing-session close (explicit stop and forced
expiry) computes cost from the tenant's tier rate ($5/$10/$20 per hour).
FALSE: both paths use the tier-independent literal rate 14 / 60 cents per
second; at 3600 elapsed seconds for the enterprise tenant the stop handler
records 840 cents, while the tier rate of the claim gives 2000 cents. -/
theorem c1_counterexample :
    stopPathCostCents 3600 = 840 ∧
    expirePathCostCents 3600 = 840 ∧
    specTierCostCents Tier.enterprise 3600 = 2000 ∧
    stopPathCostCents 3600 ≠ specTierCostCents Tier.enterprise 3600 ∧
    (stopVM c1St 5 6 true 3600).2.sessions =
      [{ c1Session with endedAt := some 3600, costCents := 840 }] := by
  decide

/-- Claim C1 (amended): both the explicit stop path and the forced-expiry
path compute the accrued cost with the identical formula
elapsedSeconds * 14 / 60 cents — a fixed rate independent of the tenant's
tier — truncated (not rounded) to whole cents, so both paths produce
identical results for identical elapsed durations. -/
theorem c1_amended (e : Nat) :
    stopPathCostCents e = expirePathCostCents e ∧
    stopPathCostCents e * 60 ≤ e * 14 ∧
    e * 14 < (stopPathCostCents e + 1) * 60 := by
  refine ⟨rfl, ?_, ?_⟩ <;> simp only [stopPathCostCents] <;> omega

/-- Claim C6: the credit deduction is a single atomic conditional update
subtracting the amount exactly when the balance is at least the amount;
the result is never negative, and a failed condition returns zero rows
(none) leaving the balance unchanged. -/
theorem c6_deduct_atomic (t : Tenant) (a : Int) :
    (∀ u : Tenant, deductCredits t a = some u →
        u.trialCredits = t.trialCredits - a ∧ 0 ≤ u.trialCredits ∧
        u.id = t.id ∧ u.tier = t.tier ∧ u.trialEndsAt = t.trialEndsAt) ∧
    (deductCredits t a = none ↔ t.trialCredits < a) := by
  constructor
  · intro u hu
    unfold deductCredits at hu
    split at hu
    next h =>
      cases hu
      refine ⟨rfl, ?_, rfl, rfl, rfl⟩
      show 0 ≤ t.trialCredits - a
      omega
    next h => cases hu
  · unfold deductCredits
    split
    · simp
      omega
    · simp
      omega

/-- Witness for c6_deduct_atomic at the default tenant: deducting 200 from
500 succeeds and leaves 300; deducting 600 affects zero rows. -/
theorem c6_deduct_atomic_witness :
    deductCredits tenant0 200 = some { tenant0 with trialCredits := 300 } ∧
    deductCredits tenant0 600 = none := by
  have h := c6_deduct_atomic tenant0 600
  exact ⟨by decide, h.2.mpr (by decide)⟩

/-- A running VM whose expiry deadline is exactly the time of the sweep. -/
def c8VM : VM :=
  { id := 2, tenantId := 0, status := VMStatus.running, startedAt := some 0,
    stoppedAt := none, expiresAt := some 1000 }

def c8St : St := { tenants := [tenant0], vms := [c8VM], sessions := [], nextId := 3 }

/-- Claim C8: the expiry-sweep boundary is inclusive — a VM whose
expires_at equals the current instant is eligible.  FALSE: findExpired
uses the strict comparison expires_at < NOW(), so at equality the VM is
not selected (it becomes eligible one second later). -/
theorem c8_counterexample :
    c8VM.status = VMStatus.running ∧
    c8VM.expiresAt = some 1000 ∧
    isExpiredCandidate c8VM 1000 = false ∧
    findExpired c8St 1000 = [] ∧
    isExpiredCandidate c8VM 1001 = true := by
  decide

/-- Claim C8 (amended): the sweep's candidate selection includes a VM
exactly when it is running and its expires_at is strictly earlier than the
current instant; at equality — or any later deadline, or a missing
deadline — it is not eligible. -/
theorem c8_amended (v : VM) (now : Nat) :
    (isExpiredCandidate v now = true ↔
      v.status = VMStatus.running ∧ ∃ e, v.expiresAt = some e ∧ e < now) ∧
    (∀ e, v.expiresAt = some e → now ≤ e → isExpiredCandidate v now = false) ∧
    (∀ s : St, v ∈ findExpired s now ↔ v ∈ s.vms ∧ isExpiredCandidate v now = true) := by
  refine ⟨?_, ?_, ?_⟩
  · cases h : v.expiresAt with
    | none => simp [isExpiredCandidate, h]
    | some e => simp [isExpiredCandidate, h]
  · intro e he hle
    simp [isExpiredCandidate, he]
    omega
  · intro s
    simp [findExpired, List.mem_filter]

/-- Witness for c8_amended at the boundary VM: at the instant equal to its
deadline it is not a candidate. -/
theorem c8_amended_witness : isExpiredCandidate c8VM 1000 = false :=
  (c8_amended c8VM 1000).2.1 1000 (by decide) (by decide)

/-- Claim C2: the per-tenant count of VMs in {provisioning, running} never
exceeds the tier limit.  FALSE as an invariant: the start route carries no
quota check, so a standard tenant (limit 1) reaches the reachable state
c2S4 with two capacity-consuming VMs — create VM 0, let it become ready
(not counted), create VM 1, then start VM 0. -/
theorem c2_counterexample :
    Reaches c2Init c2S4 ∧
    (createVM c2Init 0 0).1 = CreateOutcome.created 0 ∧
    (createVM c2S2 0 5).1 = CreateOutcome.created 1 ∧
    (startVM c2S3 0 0 true 10).1 = StartOutcome.startedOk ∧
    tierLimit tenant0.tier = 1 ∧
    activeCount c2S4 tenant0.id = 2 := by
  refine ⟨?_, by decide, by decide, by decide, rfl, by decide⟩
  exact Reaches.tail
    (Reaches.tail
      (Reaches.tail
        (Reaches.tail (Reaches.refl c2Init) (Step.create 0 0))
        (Step.provisionOk 0))
      (Step.create 0 5))
    (Step.start 0 0 true 10)

/-- Claim C2 (amended): the CREATE operation enforces the cap — for a
tenant passing the credit guard it rejects with the quota signal exactly
when the count of that tenant's VMs in {provisioning, running} is not
strictly less than the tier limit (standard=1, pro=3, enterprise=10), it
succeeds exactly when the count is strictly below the limit (raising it by
one), and ready VMs do not count against the cap.  The count can still
exceed the limit afterwards because the start route performs no quota
check. -/
theorem c2_amended (s : St) (tid now : Nat) (t : Tenant)
    (ht : findTenant s tid = some t) (hc : requireCredits t now = true) :
    ((createVM s tid now).1 = CreateOutcome.quotaExceeded ↔
        tierLimit t.tier ≤ activeCount s tid) ∧
    ((createVM s tid now).1 = CreateOutcome.created s.nextId ↔
        activeCount s tid < tierLimit t.tier) ∧
    (activeCount s tid < tierLimit t.tier →
        activeCount (createVM s tid now).2 tid = activeCount s tid + 1) ∧
    (∀ v : VM, v.status = VMStatus.ready →
        activeCount { s with vms := v :: s.vms } tid = activeCount s tid) := by
  by_cases h : tierLimit t.tier ≤ activeCount s tid
  · have hcv : createVM s tid now = (CreateOutcome.quotaExceeded, s) := by
      simp [createVM, ht, hc, h]
    refine ⟨?_, ?_, ?_, ?_⟩
    · rw [hcv]
      simp [h]
    · rw [hcv]
      simp
      omega
    · intro hlt
      omega
    · intro v hv
      simp [activeCount, List.filter_cons, countsAgainstCap, hv]
  · have hcv : createVM s tid now =
        (CreateOutcome.created s.nextId,
          { s with
              vms := s.vms ++
                [{ id := s.nextId, tenantId := tid, status := VMStatus.provisioning,
                   startedAt := none, stoppedAt := none,
                   expiresAt := some (now + newVMExpiry) }],
              nextId := s.nextId + 1 }) := by
      simp [createVM, ht, hc, h]
    refine ⟨?_, ?_, ?_, ?_⟩
    · rw [hcv]
      simp
      omega
    · rw [hcv]
      simp
      omega
    · intro hlt
      rw [hcv]
      simp [activeCount, List.filter_append, List.filter_cons, countsAgainstCap]
    · intro v hv
      simp [activeCount, List.filter_cons, countsAgainstCap, hv]

/-- Witness for c2_amended at the initial quota state: the first create of
the standard tenant succeeds and raises the active count to 1. -/
theorem c2_amended_witness :
    (createVM c2Init 0 0).1 = CreateOutcome.created 0 ∧
    activeCount (createVM c2Init 0 0).2 0 = 1 := by
  have h := c2_amended c2Init 0 0 tenant0 (by decide) (by decide)
  refine ⟨h.2.1.mpr (by decide), ?_⟩
  rw [h.2.2.1 (by decide)]
  decide

/-- A VM still in provisioning (its provider create not yet confirmed). -/
def c5VM : VM :=
  { id := 1, tenantId := 0, status := VMStatus.provisioning, startedAt := none,
    stoppedAt := none, expiresAt := some 86400 }

def c5St : St := { tenants := [tenant0], vms := [c5VM], sessions := [], nextId := 2 }

/-- Claim C5: start succeeds only from ready or stopped, records the start
time if unset, and rejects a second start as an invalid transition.
FALSE: the handler only tests for 'running', so start succeeds from
provisioning; it never writes started_at (still none after success); and a
start on a running VM is answered as a 200 no-op, not a rejection. -/
theorem c5_counterexample :
    c5VM.status = VMStatus.provisioning ∧
    c5VM.status ≠ VMStatus.ready ∧
    c5VM.status ≠ VMStatus.stopped ∧
    (startVM c5St 0 1 true 50).1 = StartOutcome.startedOk ∧
    (findVM (startVM c5St 0 1 true 50).2 0 1).map VM.status = some VMStatus.running ∧
    (findVM (startVM c5St 0 1 true 50).2 0 1).map VM.startedAt = some none ∧
    (startVM c5St 0 1 true 50).2.sessions.length = 1 := by
  decide

/-- Claim C5 (amended): for a tenant passing the credit guard and an
existing VM, start(vmId) on a VM whose status is 'running' is a no-op
answered with an already-running message (state unchanged, no rejection);
from EVERY other status, provider failure leaves the state unchanged,
while provider success sets only the status column to running (started_at
is never written), appends exactly one new open billing session, and
leaves every other VM and all tenants unchanged. -/
theorem c5_amended (s : St) (tid vmId : Nat) (pOk : Bool) (now : Nat)
    (t : Tenant) (vm : VM)
    (ht : findTenant s tid = some t) (hc : requireCredits t now = true)
    (hv : findVM s tid vmId = some vm) :
    (vm.status = VMStatus.running →
        startVM s tid vmId pOk now = (StartOutcome.alreadyRunning, s)) ∧
    (vm.status ≠ VMStatus.running → pOk = false →
        startVM s tid vmId pOk now = (StartOutcome.providerError, s)) ∧
    (vm.status ≠ VMStatus.running → pOk = true →
        startVM s tid vmId pOk now =
          (StartOutcome.startedOk,
            { s with
                vms := s.vms.map (fun v =>
                  if v.id == vmId then { v with status := VMStatus.running } else v),
                sessions := s.sessions ++
                  [{ id := s.nextId, vmId := vmId, startedAt := now,
                     endedAt := none, durationSeconds := none, costCents := 0 }],
                nextId := s.nextId + 1 })) := by
  refine ⟨?_, ?_, ?_⟩
  · intro hr
    simp [startVM, ht, hc, hv, hr]
  · intro hr hp
    simp [startVM, ht, hc, hv, hp, beq_iff_eq, hr]
  · intro hr hp
    simp [startVM, ht, hc, hv, hp, beq_iff_eq, hr, mapVM]

/-- Witness for c5_amended: a provider failure on starting the
provisioning VM leaves the state unchanged. -/
theorem c5_amended_witness :
    startVM c5St 0 1 false 50 = (StartOutcome.providerError, c5St) := by
  have h := c5_amended c5St 0 1 false 50 tenant0 c5VM (by decide) (by decide) (by decide)
  exact h.2.1 (by decide) rfl

/-- Claim C3: Drift Sync distinguishes provider disagreement (to stopped)
from unreachable/missing/failed queries (to unknown).  The code contradicts
its own comments: OrkaClient.request converts a 404 (VM missing) and a
fetch rejection (provider unreachable) into RETURNED { ok: false }
envelopes, which syncVMState's !orkaVM.ok branch maps to 'stopped'; only a
RAISED exception (authentication failure) reaches the catch whose comment
reads that it covers unreachable/missing, producing 'unknown'. -/
theorem c3_code_bug :
    (request notFoundFetch).ok = false ∧
    (request unreachableFetch).ok = false ∧
    (syncVMState c3St none respNotFound).2.vms =
      [{ c3VM with status := VMStatus.stopped }] ∧
    (syncVMState c3St none respUnreachable).2.vms =
      [{ c3VM with status := VMStatus.stopped }] ∧
    (syncVMState c3St none respAuthThrow).2.vms =
      [{ c3VM with status := VMStatus.unknown }] ∧
    VMStatus.stopped ≠ VMStatus.unknown := by
  decide

/-- The drift-sync loop never writes to vm_sessions: its only updates are
the two status UPDATEs on vm_instances. -/
theorem syncGo_sessions (resp : Nat → Except String Envelope) (l : List VM) :
    ∀ (s : St) (acc : Nat), (syncGo resp l s acc).2.sessions = s.sessions := by
  induction l with
  | nil =>
      intro s acc
      rfl
  | cons vm rest ih =>
      intro s acc
      cases hr : resp vm.id with
      | ok env =>
          simp only [syncGo, hr]
          by_cases hb : ((env.ok == false) || (env.dataStatus != some "running")) = true
          · rw [if_pos hb, ih]
            rfl
          · rw [if_neg hb]
            exact ih s acc
      | error m =>
          simp only [syncGo, hr]
          rw [ih]
          rfl

/-- Claim C4: Drift Sync closes the billing session of every VM it
corrects to stopped.  FALSE: syncVMState never touches vm_sessions at all;
here the provider is reachable and reports the VM as stopped, the local
status is corrected to stopped, and the open session is still open
afterwards. -/
theorem c4_counterexample :
    (syncVMState c4St none respReportsStopped).2.vms =
      [{ c3VM with status := VMStatus.stopped }] ∧
    (syncVMState c4St none respReportsStopped).2.sessions = [c4Session] ∧
    c4Session.endedAt = none := by
  decide

/-- Claim C4 (amended): Drift Sync never closes a billing session for ANY
outcome — the sessions table is left exactly as found, whether a VM is
corrected to stopped, set to unknown, or left alone. -/
theorem c4_amended (s : St) (q : Option String)
    (resp : Nat → Except String Envelope) :
    (syncVMState s q resp).2.sessions = s.sessions := by
  cases q with
  | none =>
      simp only [syncVMState]
      exact syncGo_sessions resp (syncTargets s) s 0
  | some m => rfl

/-- The stopped counter of the expiry sweep's loop counts exactly the
claimed VMs whose processing did not raise. -/
theorem sweepGo_count (f : Nat → PerVMOutcome) (now : Nat) (l : List VM) :
    ∀ (s : St) (acc : Nat),
      (sweepGo f now l s acc).1 =
        acc + (l.filter (fun v => (f v.id).isOk)).length := by
  induction l with
  | nil =>
      intro s acc
      simp [sweepGo]
  | cons vm rest ih =>
      intro s acc
      cases hf : f vm.id with
      | ok =>
          simp only [sweepGo, hf]
          rw [ih]
          simp [List.filter_cons, hf, PerVMOutcome.isOk]
          omega
      | throws m =>
          simp only [sweepGo, hf]
          rw [ih]
          simp [List.filter_cons, hf, PerVMOutcome.isOk]

/-- Claim C7: the expiry sweep isolates per-VM failures (a caught
exception skips only that VM and the loop continues identically on the
rest, while a successful VM is processed and counted), it always reports
the count of VMs it affected with no error marker on the success path, an
empty candidate set yields zero affected, and a sweep-level query failure
yields zero affected together with the error marker. -/
theorem c7_sweep_isolation (s : St) (msg : String) (f : Nat → PerVMOutcome)
    (now : Nat) :
    (stopExpiredVMs s (some msg) f now = ({ stopped := 0, errorMsg := some msg }, s)) ∧
    ((stopExpiredVMs s none f now).1.stopped =
        ((findExpired s now).filter (fun v => (f v.id).isOk)).length) ∧
    ((stopExpiredVMs s none f now).1.errorMsg = none) ∧
    (findExpired s now = [] →
        stopExpiredVMs s none f now = ({ stopped := 0, errorMsg := none }, s)) ∧
    (∀ (vm : VM) (rest : List VM) (s0 : St) (acc : Nat),
        (f vm.id).isOk = false →
        sweepGo f now (vm :: rest) s0 acc = sweepGo f now rest s0 acc) ∧
    (∀ (vm : VM) (rest : List VM) (s0 : St) (acc : Nat),
        f vm.id = PerVMOutcome.ok →
        sweepGo f now (vm :: rest) s0 acc =
          sweepGo f now rest (applyExpire s0 vm.id now) (acc + 1)) := by
  refine ⟨rfl, ?_, rfl, ?_, ?_, ?_⟩
  · simp only [stopExpiredVMs]
    rw [sweepGo_count]
    simp
  · intro h
    simp [stopExpiredVMs, h, sweepGo]
  · intro vm rest s0 acc hfail
    simp only [sweepGo]
    cases hf : f vm.id with
    | ok =>
        rw [hf] at hfail
        simp [PerVMOutcome.isOk] at hfail
    | throws m => rfl
  · intro vm rest s0 acc hok
    simp only [sweepGo, hok]

/-- Processing-failure oracle: VM 7 raises, every other VM succeeds. -/
def throwingOutcome : Nat → PerVMOutcome :=
  fun i => if i == 7 then PerVMOutcome.throws "db error" else PerVMOutcome.ok

/-- Witness for c7_sweep_isolation: the failing VM 7 is skipped and the
loop continues on the rest; a sweep-level query failure returns zero with
the error marker and leaves the state unchanged. -/
theorem c7_sweep_isolation_witness :
    sweepGo throwingOutcome 90000 [c3VM] c3St 0 = sweepGo throwingOutcome 90000 [] c3St 0 ∧
    stopExpiredVMs c3St (some "store unavailable") throwingOutcome 90000 =
      ({ stopped := 0, errorMsg := some "store unavailable" }, c3St) := by
  have h := c7_sweep_isolation c3St "store unavailable" throwingOutcome 90000
  exact ⟨h.2.2.2.2.1 c3VM [] c3St 0 (by decide), h.1⟩

/-- Claim C9: issue/retrieve round-trip of the ephemeral credential,
against the spec-modelled issuer (ssh.js is absent from the provided
sources): one retrieval before expiry returns the issued secret and
consumes the stored credential, so any later retrieval — and any retrieval
after expiry — reports not-found. -/
theorem c9_credential_roundtrip (t0 t1 t2 : Nat) (secret : String)
    (prior : Option Credential) (h1 : t1 < t0 + credentialTTLSeconds) :
    retrieveCredential t1 (issueCredential t0 secret prior) = (some secret, none) ∧
    (∀ u : Nat,
        retrieveCredential u
            (retrieveCredential t1 (issueCredential t0 secret prior)).2 =
          (none, none)) ∧
    (t0 + credentialTTLSeconds < t2 →
        retrieveCredential t2 (issueCredential t0 secret prior) = (none, none)) := by
  have h : retrieveCredential t1 (issueCredential t0 secret prior) = (some secret, none) := by
    simp only [issueCredential, retrieveCredential]
    rw [if_neg (by omega)]
  refine ⟨h, ?_, ?_⟩
  · intro u
    rw [h]
    rfl
  · intro h2
    simp only [issueCredential, retrieveCredential]
    rw [if_pos (by omega)]

/-- Witness for c9_credential_roundtrip: a credential issued at time 0 is
retrieved at time 10 and not after its expiry at time 400. -/
theorem c9_credential_roundtrip_witness :
    retrieveCredential 10 (issueCredential 0 "pw" none) = (some "pw", none) ∧
    retrieveCredential 400 (issueCredential 0 "pw" none) = (none, none) := by
  have h := c9_credential_roundtrip 0 10 400 "pw" none (by decide)
  exact ⟨h.1, h.2.2 (by decide)⟩

/-- No branch of the create handler writes to the tenants table. -/
theorem createVM_tenants (s : St) (tid now : Nat) :
    (createVM s tid now).2.tenants = s.tenants := by
  unfold createVM
  split
  · rfl
  · split
    · rfl
    · split
      · rfl
      · rfl

/-- No branch of the start handler writes to the tenants table. -/
theorem startVM_tenants (s : St) (tid vmId : Nat) (p : Bool) (now : Nat) :
    (startVM s tid vmId p now).2.tenants = s.tenants := by
  unfold startVM
  split
  · rfl
  · split
    · rfl
    · split
      · rfl
      · split
        · rfl
        · split
          · rfl
          · rfl

/-- Closing a session on the stop path does not touch the tenants table. -/
theorem closeStop_tenants (s : St) (vmId now : Nat) :
    (closeOpenSessionStopPath s vmId now).tenants = s.tenants := by
  unfold closeOpenSessionStopPath
  cases findOpenSession s vmId <;> rfl

/-- Closing a session on the expiry path does not touch the tenants table. -/
theorem closeExpire_tenants (s : St) (vmId now : Nat) :
    (closeOpenSessionExpirePath s vmId now).tenants = s.tenants := by
  unfold closeOpenSessionExpirePath
  cases findOpenSession s vmId <;> rfl

/-- No branch of the stop handler writes to the tenants table. -/
theorem stopVM_tenants (s : St) (tid vmId : Nat) (p : Bool) (now : Nat) :
    (stopVM s tid vmId p now).2.tenants = s.tenants := by
  unfold stopVM
  split
  · rfl
  · split
    · rfl
    · split
      · rfl
      · rw [closeStop_tenants]
        rfl

/-- The delete handler removes only VM rows and their sessions. -/
theorem deleteVM_tenants (s : St) (tid vmId : Nat) :
    (deleteVM s tid vmId).tenants = s.tenants := by
  unfold deleteVM
  split <;> rfl

/-- Expiring one VM does not touch the tenants table. -/
theorem applyExpire_tenants (s : St) (vmId now : Nat) :
    (applyExpire s vmId now).tenants = s.tenants := by
  unfold applyExpire
  rw [closeExpire_tenants]
  rfl

/-- The expiry sweep's loop does not touch the tenants table. -/
theorem sweepGo_tenants (f : Nat → PerVMOutcome) (now : Nat) (l : List VM) :
    ∀ (s : St) (acc : Nat), (sweepGo f now l s acc).2.tenants = s.tenants := by
  induction l with
  | nil =>
      intro s acc
      rfl
  | cons vm rest ih =>
      intro s acc
      cases hf : f vm.id with
      | ok =>
          simp only [sweepGo, hf]
          rw [ih, applyExpire_tenants]
      | throws m =>
          simp only [sweepGo, hf]
          exact ih s acc

/-- The expiry sweep does not touch the tenants table. -/
theorem stopExpiredVMs_tenants (s : St) (q : Option String)
    (f : Nat → PerVMOutcome) (now : Nat) :
    (stopExpiredVMs s q f now).2.tenants = s.tenants := by
  cases q with
  | none =>
      simp only [stopExpiredVMs]
      exact sweepGo_tenants f now (findExpired s now) s 0
  | some m => rfl

/-- The drift-sync loop does not touch the tenants table. -/
theorem syncGo_tenants (resp : Nat → Except String Envelope) (l : List VM) :
    ∀ (s : St) (acc : Nat), (syncGo resp l s acc).2.tenants = s.tenants := by
  induction l with
  | nil =>
      intro s acc
      rfl
  | cons vm rest ih =>
      intro s acc
      cases hr : resp vm.id with
      | ok env =>
          simp only [syncGo, hr]
          by_cases hb : ((env.ok == false) || (env.dataStatus != some "running")) = true
          · rw [if_pos hb, ih]
            rfl
          · rw [if_neg hb]
            exact ih s acc
      | error m =>
          simp only [syncGo, hr]
          rw [ih]
          rfl

/-- Drift sync does not touch the tenants table. -/
theorem syncVMState_tenants (s : St) (q : Option String)
    (resp : Nat → Except String Envelope) :
    (syncVMState s q resp).2.tenants = s.tenants := by
  cases q with
  | none =>
      simp only [syncVMState]
      exact syncGo_tenants resp (syncTargets s) s 0
  | some m => rfl

/-- No single orchestrator step writes to the tenants table. -/
theorem step_tenants {s u : St} (h : Step s u) : u.tenants = s.tenants := by
  cases h with
  | create tid now => exact createVM_tenants s tid now
  | provisionOk vmId => rfl
  | provisionFail vmId => rfl
  | start tid vmId p now => exact startVM_tenants s tid vmId p now
  | stop tid vmId p now => exact stopVM_tenants s tid vmId p now
  | remove tid vmId => exact deleteVM_tenants s tid vmId
  | sweep q f now => exact stopExpiredVMs_tenants s q f now
  | sync q resp => exact syncVMState_tenants s q resp

/-- Claim C10: no VM operation ever changes any tenant row — in
particular trial_credits.  Along every reachable trace of creates,
provision outcomes, starts, stops, deletes and sweeps, the tenants table
(and with it every credit balance) is exactly the initial one; the guard
only reads it, and the deductCredits update is invoked on no path. -/
theorem c10_credits_frame (s u : St) (h : Reaches s u) : u.tenants = s.tenants := by
  induction h with
  | refl => rfl
  | tail hr hs ih => exact (step_tenants hs).trans ih

/-- Witness for c10_credits_frame: one concrete drift-sync step leaves the
tenants table unchanged. -/
theorem c10_credits_frame_witness :
    (syncVMState c3St none respNotFound).2.tenants = c3St.tenants :=
  c10_credits_frame c3St (syncVMState c3St none respNotFound).2
    (Reaches.tail (Reaches.refl c3St) (Step.sync none respNotFound))

end CloudClaw
